import Mathlib

set_option maxHeartbeats 1000000

/-!
Verification of the Meshtastic Field Flasher repository.

This file shallowly embeds the behaviour of the two Python scripts,
`meshtastic__field_flasher.py` and `gps_test_com.py`, as executable Lean
definitions, and proves the testable properties of the specification
against them.  Pure string manipulation is embedded directly; filesystem
and process interaction is embedded by passing an explicit environment
record of query functions, and side effects are embedded as explicit
effect traces.
-/

namespace Flashtastic

/-! ## Basic string helpers (models of the Python built-ins used) -/

/-- ASCII decimal digit test, as used by `str.isdigit` on the inputs this
program deals with. -/
def isAsciiDigit (c : Char) : Bool :=
  decide ('0' ≤ c) && decide (c ≤ '9')

/-- The whitespace characters removed by Python `str.strip`. -/
def isPyWhitespace (c : Char) : Bool :=
  decide (c = ' ' ∨ c = '\t' ∨ c = '\n' ∨ c = '\r' ∨ c = '\x0b' ∨ c = '\x0c')

/-- Drop leading whitespace characters. -/
def dropLeadingWs : List Char → List Char
  | [] => []
  | c :: rest => if isPyWhitespace c then dropLeadingWs rest else c :: rest

/-- Model of Python `str.strip`: remove leading and trailing whitespace. -/
def pyStrip (s : String) : String :=
  String.mk ((dropLeadingWs ((dropLeadingWs s.data).reverse)).reverse)

/-- Model of Python `str.lower` on the ASCII paths this program handles. -/
def pyLower (s : String) : String :=
  String.mk (s.data.map Char.toLower)

/-- Model of Python `str.endswith`. -/
def strEndsWith (s suf : String) : Bool :=
  suf.data.isSuffixOf s.data

/-- Whether the last character of a list is a Windows path separator (or
a drive colon). -/
def lastIsSep : List Char → Bool
  | [] => false
  | [c] => decide (c = '\\' ∨ c = '/' ∨ c = ':')
  | _ :: c :: rest => lastIsSep (c :: rest)

/-- Model of Python `str.isdigit`: the string is non-empty and every
character is a decimal digit. -/
def pyIsDigitStr (s : String) : Bool :=
  !s.data.isEmpty && s.data.all isAsciiDigit

/-- Value of a list of decimal digit characters, most significant first. -/
def digitsToNat (l : List Char) : Nat :=
  l.foldl (fun a c => 10 * a + (c.toNat - 48)) 0

/-- Model of Python `int(s)` on an already-stripped string: an optional
sign followed by at least one decimal digit, otherwise a `ValueError`
(here `none`). -/
def pyIntOfString? (s : String) : Option Int :=
  match s.data with
  | [] => none
  | c :: rest =>
    if c = '+' then
      if rest ≠ [] ∧ rest.all isAsciiDigit then some (digitsToNat rest : Int) else none
    else if c = '-' then
      if rest ≠ [] ∧ rest.all isAsciiDigit then some (-(digitsToNat rest : Int)) else none
    else if (c :: rest).all isAsciiDigit then some (digitsToNat (c :: rest) : Int) else none

/-- Model of Python `str.zfill`: left-pad with `'0'` up to width `w`,
keeping a leading sign in front of the padding. -/
def zfill (s : String) (w : Nat) : String :=
  match s.data with
  | [] => String.mk (List.replicate w '0')
  | c :: rest =>
    if c = '+' ∨ c = '-' then
      String.mk (c :: (List.replicate (w - (rest.length + 1)) '0' ++ rest))
    else
      String.mk (List.replicate (w - (rest.length + 1)) '0' ++ (c :: rest))

/-- Strip one leading sign character, if present. -/
def dropSign : List Char → List Char
  | [] => []
  | c :: rest => if c = '+' ∨ c = '-' then rest else c :: rest

/-- Split a character list at the first exponent marker `e`/`E`. -/
def splitAtExp : List Char → List Char × Option (List Char)
  | [] => ([], none)
  | c :: rest =>
    if c = 'e' ∨ c = 'E' then ([], some rest)
    else
      let p := splitAtExp rest
      (c :: p.1, p.2)

/-- A valid float mantissa: digits with at most one decimal point and at
least one digit. -/
def mantissaValid (l : List Char) : Bool :=
  decide (l.count '.' ≤ 1) && l.any isAsciiDigit && l.all (fun c => isAsciiDigit c || c == '.')

/-- A valid exponent tail: optional sign then at least one digit. -/
def expDigitsValid (l : List Char) : Bool :=
  !(dropSign l).isEmpty && (dropSign l).all isAsciiDigit

/-- Model of Python `float(s)` acceptance: optional surrounding
whitespace and sign, then `inf`/`infinity`/`nan` (case-insensitive) or a
decimal mantissa with optional exponent.  (Digit-group underscores are
not modelled; the coordinates this program handles never contain them.) -/
def pyFloatValid (s : String) : Bool :=
  let l := dropSign (pyStrip s).data
  let low := l.map Char.toLower
  if low = "inf".data ∨ low = "infinity".data ∨ low = "nan".data then true
  else
    match splitAtExp l with
    | (m, none) => mantissaValid m
    | (m, some e) => mantissaValid m && expDigitsValid e

/-- Model of `os.path.basename` for the Windows paths this program uses:
the characters after the last path separator. -/
def basename (p : String) : String :=
  String.mk (p.data.foldl (fun acc c => if c = '\\' ∨ c = '/' then [] else acc ++ [c]) [])

/-- Model of `os.path.join` for a drive root and a relative basename. -/
def joinPath (a b : String) : String :=
  if a.data.isEmpty then b
  else if lastIsSep a.data then a ++ b
  else a ++ "\\" ++ b

/-! ## Data model: modes and application state -/

/-- One entry of the `MODE_DEFS` table. -/
structure ModeDef where
  label : String
  flash_method : String
  firmware_default : String
  gps_mode : String
  role : String
deriving DecidableEq

/-- The three keys of the `MODE_DEFS` table. -/
inductive ModeKey where
  | RAK4631
  | HeltecV3
  | HeltecV4
deriving DecidableEq

/-- The static `MODE_DEFS` table. -/
def MODE_DEFS : ModeKey → ModeDef
  | ModeKey.RAK4631 =>
    { label := "RAK4631 Router (UF2 Drive)", flash_method := "uf2_drive",
      firmware_default := "rak4631.uf2", gps_mode := "fixed", role := "ROUTER" }
  | ModeKey.HeltecV3 =>
    { label := "Heltec V3 Client (No GPS)", flash_method := "esptool",
      firmware_default := "heltec_v3_client.bin", gps_mode := "none", role := "CLIENT" }
  | ModeKey.HeltecV4 =>
    { label := "Heltec V4 Client (GPS)", flash_method := "esptool",
      firmware_default := "heltec_v4_gps.bin", gps_mode := "gps", role := "CLIENT" }

/-- The `SETURL_VALUE` provisioning URL constant. -/
def SETURL_VALUE : String :=
  "https://meshtastic.org/e/#CjESIIBUPqT60FhSuxvl2JP2kE7uVHX5ygCrMJ8y8pLb5vXOGgVTTk9SUigBMAE6AgggEhgIARj6ASALKAU4AUAFSAFQHlgjaAHIBgE"

/-- The user-editable fields of the application, a snapshot of the Tk
string variables read by the worker actions. -/
structure AppState where
  mode : ModeKey
  firmware_path : String
  uf2_drive : String
  owner_letters : String
  owner_num : String
  owner_short_letters : String
  owner_short_num : String
  lat : String
  lon : String

/-! ## Owner strings and the Meshtastic configuration command -/

/-- Embeds `_build_owner_strings`: each owner name is the stripped
letters field concatenated with the stripped numeric field. -/
def buildOwnerStrings (st : AppState) : String × String :=
  (pyStrip st.owner_letters ++ pyStrip st.owner_num,
   pyStrip st.owner_short_letters ++ pyStrip st.owner_short_num)

/-- Embeds `_meshtastic_config_cmd`: the argument list passed to the
Meshtastic CLI. -/
def meshtasticConfigCmd (st : AppState) : List String :=
  let d := MODE_DEFS st.mode
  let ow := buildOwnerStrings st
  let cmd := ["meshtastic",
    "--seturl", SETURL_VALUE,
    "--set-owner", ow.1,
    "--set-owner-short", ow.2,
    "--set", "neighbor_info.update_interval", "120",
    "--set", "neighbor_info.transmit_over_lora", "true",
    "--set", "neighbor_info.enabled", "true",
    "--set", "device.role", d.role,
    "--set", "device.rebroadcast_mode", "ALL",
    "--set", "lora.config_ok_to_mqtt", "true"]
  if d.gps_mode = "fixed" then
    cmd ++ ["--set", "position.fixed_position", "true",
            "--setlat", pyStrip st.lat,
            "--setlon", pyStrip st.lon]
  else
    cmd ++ ["--set", "position.fixed_position", "false"]

/-- Embeds the inner `inc` of `_increment_owner_number`: strip the field,
remember its length as the pad width when it is all digits, parse it as an
integer (treating an empty string as 0 and a parse failure as 0 with no
padding), add one, and zero-fill to the remembered width. -/
def incOwnerNumber (s0 : String) : String :=
  let s := pyStrip s0
  let width := if pyIsDigitStr s then s.length else 0
  match (if s = "" then some (0 : Int) else pyIntOfString? s) with
  | some n => if width > 0 then zfill (toString (n + 1)) width else toString (n + 1)
  | none => toString ((0 : Int) + 1)

/-! ## Effects, filesystem and process environment -/

/-- The observable side effects a worker action can perform. -/
inductive Effect where
  | log (s : String)
  | copyFile (src dest : String)
  | runProc (cmd : List String)
  | sleep (sec : Nat)
  | showError (msg : String)
deriving DecidableEq

/-- Filesystem queries the program makes. -/
structure FS where
  isFile : String → Bool
  isDir : String → Bool

/-- The full external environment of a worker action: filesystem plus the
exit code and combined raw output bytes each invoked command produces. -/
structure Env where
  fs : FS
  procExit : List String → Int
  procOutput : List String → List Nat

/-- Single-byte UTF-8 decode with `errors="replace"`, as performed by
`run_cmd_stream` on each byte read: ASCII bytes decode to themselves and
any other byte becomes U+FFFD. -/
def decodeByte (b : Nat) : Char :=
  if b < 128 then Char.ofNat b else Char.ofNat 65533

/-- The per-byte forwarding loop of `run_cmd_stream`: each decoded
character is written to the sink, a carriage return being written as a
newline. -/
def streamLoop : List Nat → List Effect
  | [] => []
  | b :: rest =>
    let ch := decodeByte b
    (if ch = '\r' then Effect.log "\n" else Effect.log (String.mk [ch])) :: streamLoop rest

/-- Embeds `run_cmd_stream` for an argument-list command: echo the
command line, start the process, forward its output byte by byte, and
report a failure message carrying the exit code when it is non-zero. -/
def runCmdStreamEff (env : Env) (cmd : List String) : List Effect × Option String :=
  let rc := env.procExit cmd
  (Effect.log ("$ " ++ String.intercalate " " cmd ++ "\n") :: Effect.runProc cmd ::
     streamLoop (env.procOutput cmd),
   if rc = 0 then none else some ("Command failed (exit " ++ toString rc ++ ")"))

/-- Embeds `copy_uf2_to_drive`: validate the source file, its extension
(case-insensitively) and the destination drive, then copy. The returned
pair is the effect trace and the raised error, if any. -/
def copyUf2ToDrive (fs : FS) (uf2Path driveRoot : String) : List Effect × Option String :=
  if fs.isFile uf2Path = false then ([], some "Firmware file not found.")
  else if strEndsWith (pyLower uf2Path) ".uf2" = false then
    ([], some "UF2 flashing requires a .uf2 file.")
  else if fs.isDir driveRoot = false then ([], some ("Drive not found: " ++ driveRoot))
  else
    let dest := joinPath driveRoot (basename uf2Path)
    ([Effect.log ("Copying UF2 to " ++ dest ++ "\n"),
      Effect.copyFile uf2Path dest,
      Effect.log "Copy complete. Device may reboot.\n"], none)

/-- Embeds `wait_seconds`: a countdown of log lines and one-second
sleeps, then a blank line. -/
def waitSeconds (sec : Nat) : List Effect :=
  (List.map (fun i =>
      [Effect.log ("Waiting for reboot... " ++ toString (sec - i) ++ "s\n"), Effect.sleep 1])
    (List.range sec)).flatten ++ [Effect.log "\n"]

/-! ## Validation and the flash action -/

/-- Embeds `_validate_common`: the precondition checks run before every
worker action, in source order, returning the first error raised. -/
def validateCommon (st : AppState) (fs : FS) : Option String :=
  let d := MODE_DEFS st.mode
  let fw := pyStrip st.firmware_path
  if fw = "" ∨ fs.isFile fw = false then some "Firmware file not set or not found."
  else if d.flash_method = "uf2_drive" ∧ pyStrip st.uf2_drive = "" then
    some "Select/detect the UF2 drive."
  else if pyStrip st.owner_letters = "" then some "Owner letters required."
  else if pyIsDigitStr (pyStrip st.owner_num) = false then
    some "Owner number must be digits (e.g. 01)."
  else if pyStrip st.owner_short_letters = "" then some "Owner short letters required."
  else if pyIsDigitStr (pyStrip st.owner_short_num) = false then
    some "Owner short number must be digits (e.g. 01)."
  else if d.gps_mode = "fixed" ∧
      (pyFloatValid (pyStrip st.lat) = false ∨ pyFloatValid (pyStrip st.lon) = false) then
    some "Latitude/Longitude must be valid numbers for fixed position mode."
  else none

/-- Embeds `_do_flash`: dispatch on the mode's flash method, either
copying the UF2 file and waiting for the reboot, or invoking esptool. -/
def doFlash (st : AppState) (env : Env) : List Effect × Option String :=
  let d := MODE_DEFS st.mode
  let fw := pyStrip st.firmware_path
  if d.flash_method = "uf2_drive" then
    let pre := [Effect.log "Flashing (UF2 copy)...\n"]
    let r := copyUf2ToDrive env.fs fw (pyStrip st.uf2_drive)
    match r.2 with
    | some e => (pre ++ r.1, some e)
    | none => (pre ++ r.1 ++ waitSeconds 8, none)
  else
    let cmd := ["esptool", "--baud", "115200", "write-flash", "0x00", fw]
    let pre := [Effect.log "Flashing (esptool)...\n"]
    let r := runCmdStreamEff env cmd
    match r.2 with
    | some e => (pre ++ r.1, some e)
    | none => (pre ++ r.1 ++ [Effect.log "\nFlash done.\n"], none)

/-- Embeds the worker body of `flash_only`: validate, then flash; any
raised error is logged and shown in a modal dialog. -/
def flashOnly (st : AppState) (env : Env) : List Effect :=
  match validateCommon st env.fs with
  | some e => [Effect.log ("\nERROR: " ++ e ++ "\n"), Effect.showError e]
  | none =>
    let pre := [Effect.log ("Mode: " ++ (MODE_DEFS st.mode).label ++ "\n")]
    let r := doFlash st env
    match r.2 with
    | some e => pre ++ r.1 ++ [Effect.log ("\nERROR: " ++ e ++ "\n"), Effect.showError e]
    | none => pre ++ r.1

/-! ## UF2 drive detection -/

/-- Environment for drive detection: the removable drive roots the OS
reports, and an existence query that can itself fail (`.error`). -/
structure DriveEnv where
  removable : List String
  pathExists : String → Except Unit Bool

/-- The marker-file test of `detect_uf2_drives` for one drive: the first
existence query short-circuits the second, and a failure of either
propagates. -/
def markerCheck (env : DriveEnv) (d : String) : Except Unit Bool :=
  match env.pathExists (joinPath d "INFO_UF2.TXT") with
  | Except.error e => Except.error e
  | Except.ok true => Except.ok true
  | Except.ok false => env.pathExists (joinPath d "UF2INFO.TXT")

/-- The accumulation loop of `detect_uf2_drives`: a drive is kept exactly
when its marker check succeeds with `true`; a raised query error is
swallowed and the drive skipped. -/
def detectGo (env : DriveEnv) : List String → List String
  | [] => []
  | d :: rest =>
    match markerCheck env d with
    | Except.ok true => d :: detectGo env rest
    | Except.ok false => detectGo env rest
    | Except.error _ => detectGo env rest

/-- Embeds `detect_uf2_drives`. -/
def detectUf2Drives (env : DriveEnv) : List String :=
  detectGo env env.removable

/-! ## GPS query script -/

/-- The two error cases of `get_lat_lon`. -/
inductive GpsError where
  | createFailed (hr : Int)
  | noFix
deriving DecidableEq

/-- Environment of `get_lat_lon`: the HRESULT of `CoCreateInstance`, and
for each one-second poll the HRESULT of `ILocation::GetReport` together
with the report it writes (if any).  Report contents are abstracted by
the type parameter. -/
structure GpsEnv (α : Type) where
  createHr : Int
  reportAt : Nat → Int × Option α

/-- The `report` variable after one `GetReport` call: a report written by
the call replaces the old value, otherwise the old value is kept. -/
def updReport {α : Type} (r : Option α) : Option α → Option α
  | some x => some x
  | none => r

/-- The code after the polling loop of `get_lat_lon`: a missing report is
the "No GPS fix" error, otherwise the coordinates are extracted from the
report. -/
def finishReport {α : Type} : Option α → Except GpsError α
  | some r => Except.ok r
  | none => Except.error GpsError.noFix

/-- The polling loop of `get_lat_lon`: at most `n` more one-second polls
starting at second `t`, with `rep` the report obtained so far.  The loop
breaks into the post-loop code when a poll returns HRESULT 0 and the
report is present, or when the window is exhausted. -/
def gpsLoop {α : Type} (env : GpsEnv α) : Nat → Nat → Option α → Except GpsError α
  | 0, _, rep => finishReport rep
  | n + 1, t, rep =>
    let rep2 := updReport rep (env.reportAt t).2
    if (env.reportAt t).1 = 0 ∧ rep2.isSome then finishReport rep2
    else gpsLoop env n (t + 1) rep2

/-- Embeds `get_lat_lon`: fail on a non-zero `CoCreateInstance` HRESULT,
otherwise poll for a fix over the fixed 15-second window. -/
def getLatLon {α : Type} (env : GpsEnv α) : Except GpsError α :=
  if env.createHr ≠ 0 then Except.error (GpsError.createFailed env.createHr)
  else gpsLoop env 15 0 none

/-! ## Observation helpers used by the theorems -/

/-- `ContainsSeq pat l` holds when `pat` occurs contiguously inside `l`. -/
def ContainsSeq (pat l : List String) : Prop :=
  ∃ t u, l = t ++ (pat ++ u)

/-- Collect the `(key, value)` pairs passed via `--set` flags in a
command line. -/
def setPairs : List String → List (String × String)
  | "--set" :: k :: v :: rest => (k, v) :: setPairs rest
  | _ :: rest => setPairs rest
  | [] => []

/-! ## Concrete sample inputs for witnesses and counterexamples -/

/-- A representative application state: the RAK4631 fixed-position mode
with the default field values of the source. -/
def sampleState : AppState :=
  { mode := ModeKey.RAK4631, firmware_path := "rak4631.uf2", uf2_drive := "E:\\",
    owner_letters := "SNORR TEST", owner_num := "01",
    owner_short_letters := "MT", owner_short_num := "01",
    lat := "37.8651", lon := "-119.5383" }

/-- The sample state with no firmware path, so that validation fails. -/
def emptyFwState : AppState :=
  { sampleState with firmware_path := "" }

/-- An environment whose filesystem has no files, whose processes exit
cleanly, and whose process output is empty. -/
def sampleEnv : Env :=
  { fs := { isFile := fun _ => false, isDir := fun _ => false },
    procExit := fun _ => 0,
    procOutput := fun _ => [] }

/-- An environment whose invoked process emits the single non-ASCII byte
200 and exits cleanly. -/
def byteEnv : Env :=
  { fs := { isFile := fun _ => false, isDir := fun _ => false },
    procExit := fun _ => 0,
    procOutput := fun _ => [200] }

/-- A drive environment: two removable drives, the first bearing the UF2
marker file, the second failing every existence query. -/
def sampleDriveEnv : DriveEnv :=
  { removable := ["E:\\", "F:\\"],
    pathExists := fun p =>
      if p = "E:\\INFO_UF2.TXT" then Except.ok true
      else if p = "E:\\UF2INFO.TXT" then Except.ok false
      else Except.error () }

/-- A GPS environment that instantiates the provider successfully but
never yields a report. -/
def gpsEnvNoReport : GpsEnv Unit :=
  { createHr := 0, reportAt := fun _ => (1, none) }

/-- A GPS environment whose provider instantiation fails. -/
def gpsEnvBadCreate : GpsEnv Unit :=
  { createHr := 5, reportAt := fun _ => (0, some ()) }

/-! ## Helper lemmas -/

/-- A pattern occurs at the head of a list it is a prefix of. -/
theorem containsSeq_here (pat u : List String) : ContainsSeq pat (pat ++ u) :=
  ⟨[], u, rfl⟩

/-- Occurrence of a pattern is preserved by consing an element in front. -/
theorem containsSeq_cons (a : String) {pat l : List String} (h : ContainsSeq pat l) :
    ContainsSeq pat (a :: l) := by
  obtain ⟨t, u, rfl⟩ := h
  exact ⟨a :: t, u, rfl⟩

/-- The drive-not-found message differs from the extension message
whatever the drive string is. -/
theorem driveMsg_ne (d : String) :
    ("Drive not found: " ++ d) ≠ "UF2 flashing requires a .uf2 file." := by
  intro h
  have h2 : ("Drive not found: " ++ d).data =
      ("UF2 flashing requires a .uf2 file." : String).data := congrArg String.data h
  rw [String.data_append] at h2
  have h3 : ("Drive not found: " : String).data = 'D' :: ("rive not found: " : String).data := rfl
  have h4 : ("UF2 flashing requires a .uf2 file." : String).data =
      'U' :: ("F2 flashing requires a .uf2 file." : String).data := rfl
  rw [h3, h4, List.cons_append] at h2
  injection h2 with h5 _
  exact absurd h5 (by decide)

/-- A single decoded byte is the carriage-return character exactly for
byte 13. -/
theorem decodeByte_eq_cr_iff (b : Nat) : decodeByte b = '\r' ↔ b = 13 := by
  constructor
  · intro h
    by_contra hb
    unfold decodeByte at h
    by_cases hlt : b < 128
    · rw [if_pos hlt] at h
      interval_cases b
      all_goals first | (exact hb rfl) | (exact absurd h (by decide))
    · rw [if_neg hlt] at h
      exact absurd h (by decide)
  · rintro rfl
    decide

/-- The byte-forwarding loop, written as a map over the output bytes. -/
theorem streamLoop_eq_map (l : List Nat) :
    streamLoop l =
      l.map (fun b => Effect.log (if b = 13 then "\n" else String.mk [decodeByte b])) := by
  induction l with
  | nil => rfl
  | cons b rest ih =>
    simp only [streamLoop, ih, List.map_cons, List.cons.injEq, and_true]
    by_cases hb : b = 13
    · subst hb
      simp [decodeByte_eq_cr_iff]
    · rw [if_neg ((decodeByte_eq_cr_iff b).not.mpr hb), if_neg hb]

/-- Unpacking of the `isdigit` test. -/
theorem pyIsDigitStr_parts {s : String} (h : pyIsDigitStr s = true) :
    s.data ≠ [] ∧ s.data.all isAsciiDigit = true := by
  simp only [pyIsDigitStr, Bool.and_eq_true] at h
  refine ⟨?_, h.2⟩
  intro hnil
  rw [hnil] at h
  simp at h

/-- A string with a non-empty character list has positive length. -/
theorem length_pos_of_data_ne_nil {s : String} (h : s.data ≠ []) : 0 < s.length := by
  obtain ⟨l⟩ := s
  rw [String.length_mk]
  exact List.length_pos.mpr h

/-- Parsing an all-digit string succeeds and yields its digit value. -/
theorem pyIntOfString_digits (s : String) (h1 : s.data ≠ [])
    (h2 : s.data.all isAsciiDigit = true) :
    pyIntOfString? s = some (digitsToNat s.data : Int) := by
  cases hl : s.data with
  | nil => exact absurd hl h1
  | cons c rest =>
    have hc : isAsciiDigit c = true := by
      rw [hl] at h2
      simp only [List.all_cons, Bool.and_eq_true] at h2
      exact h2.1
    have hcp : ¬(c = '+') := by rintro rfl; exact absurd hc (by decide)
    have hcm : ¬(c = '-') := by rintro rfl; exact absurd hc (by decide)
    simp only [pyIntOfString?, hl]
    rw [if_neg hcp, if_neg hcm, if_pos]
    rw [← hl]
    exact h2

/-- Membership characterisation of the drive-detection loop. -/
theorem detectGo_mem (env : DriveEnv) (l : List String) (d : String) :
    d ∈ detectGo env l ↔ (d ∈ l ∧ markerCheck env d = Except.ok true) := by
  induction l with
  | nil => simp [detectGo]
  | cons a rest ih =>
    cases hm : markerCheck env a with
    | error err =>
      simp only [detectGo, hm, List.mem_cons]
      constructor
      · intro hmem
        have h2 := ih.mp hmem
        exact ⟨Or.inr h2.1, h2.2⟩
      · rintro ⟨(rfl | hd), hok⟩
        · rw [hm] at hok; cases hok
        · exact ih.mpr ⟨hd, hok⟩
    | ok b =>
      cases b with
      | false =>
        simp only [detectGo, hm, List.mem_cons]
        constructor
        · intro hmem
          have h2 := ih.mp hmem
          exact ⟨Or.inr h2.1, h2.2⟩
        · rintro ⟨(rfl | hd), hok⟩
          · rw [hm] at hok; cases hok
          · exact ih.mpr ⟨hd, hok⟩
      | true =>
        simp only [detectGo, hm, List.mem_cons]
        constructor
        · rintro (rfl | hmem)
          · exact ⟨Or.inl rfl, hm⟩
          · have h2 := ih.mp hmem
            exact ⟨Or.inr h2.1, h2.2⟩
        · rintro ⟨(rfl | hd), hok⟩
          · exact Or.inl rfl
          · exact Or.inr (ih.mpr ⟨hd, hok⟩)

/-- Shifting a bounded universal quantifier by one step. -/
theorem forall_lt_succ_shift (P : Nat → Prop) (t n : Nat) :
    (∀ i, i < n + 1 → P (t + i)) ↔ (P t ∧ ∀ i, i < n → P (t + 1 + i)) := by
  constructor
  · intro h
    refine ⟨by simpa using h 0 (by omega), ?_⟩
    intro i hi
    have hh := h (i + 1) (by omega)
    have he : t + (i + 1) = t + 1 + i := by omega
    rwa [he] at hh
  · rintro ⟨h0, hrest⟩ i hi
    cases i with
    | zero => simpa using h0
    | succ j =>
      have hh := hrest j (by omega)
      have he : t + 1 + j = t + (j + 1) := by omega
      rwa [he] at hh

/-- The polling loop ends in the fix-timeout error exactly when no report
was present at entry and no poll of the window writes one. -/
theorem gpsLoop_noFix_iff {α : Type} (env : GpsEnv α) :
    ∀ (n t : Nat) (rep : Option α),
      gpsLoop env n t rep = Except.error GpsError.noFix ↔
        (rep = none ∧ ∀ i, i < n → (env.reportAt (t + i)).2 = none) := by
  intro n
  induction n with
  | zero =>
    intro t rep
    cases rep <;> simp [gpsLoop, finishReport]
  | succ n ih =>
    intro t rep
    simp only [gpsLoop]
    cases hro : (env.reportAt t).2 with
    | some x =>
      simp only [hro, updReport]
      have hi0 : ¬(∀ i, i < n + 1 → (env.reportAt (t + i)).2 = none) := by
        intro hall
        have hz := hall 0 (by omega)
        rw [Nat.add_zero, hro] at hz
        cases hz
      split
      · simp only [finishReport]
        constructor
        · intro hcon; cases hcon
        · rintro ⟨_, hall⟩; exact absurd hall hi0
      · rw [ih (t + 1) (some x)]
        constructor
        · rintro ⟨hcon, _⟩; cases hcon
        · rintro ⟨_, hall⟩; exact absurd hall hi0
    | none =>
      simp only [hro, updReport]
      cases rep with
      | some y =>
        split
        · simp only [finishReport]
          constructor
          · intro hcon; cases hcon
          · rintro ⟨hcon, _⟩; cases hcon
        · rw [ih (t + 1) (some y)]
          constructor
          · rintro ⟨hcon, _⟩; cases hcon
          · rintro ⟨hcon, _⟩; cases hcon
      | none =>
        rw [if_neg (by simp)]
        rw [ih (t + 1) none]
        rw [forall_lt_succ_shift (fun m => (env.reportAt m).2 = none) t n]
        simp [hro]

/-! ## Claim theorems -/

/-- Claim C8: the owner long name and owner short name are each built by
concatenating the letters field and the numeric field with no separator
(for fields carrying no surrounding whitespace, which the source strips). -/
theorem buildOwnerStrings_concat (st : AppState)
    (h1 : pyStrip st.owner_letters = st.owner_letters)
    (h2 : pyStrip st.owner_num = st.owner_num)
    (h3 : pyStrip st.owner_short_letters = st.owner_short_letters)
    (h4 : pyStrip st.owner_short_num = st.owner_short_num) :
    buildOwnerStrings st =
      (st.owner_letters ++ st.owner_num, st.owner_short_letters ++ st.owner_short_num) := by
  simp [buildOwnerStrings, h1, h2, h3, h4]

/-- Witness for C8: letters "MT" and number "01" yield owner short name
"MT01" (and the long fields "SNORR TEST"/"01" yield "SNORR TEST01"). -/
theorem buildOwnerStrings_concat_witness :
    buildOwnerStrings sampleState = ("SNORR TEST01", "MT01") := by
  rw [buildOwnerStrings_concat sampleState (by decide) (by decide) (by decide) (by decide)]
  decide

/-- Claim C6 (amended): for every mode the built command line starts with
the tool name and contains the provisioning URL, the owner long and short
names, the five fixed settings (three neighbor-info settings, the
rebroadcast mode and the MQTT-ok flag), the device role from the mode
definition, and the fixed-position handling. -/
theorem configCmd_shape (st : AppState) :
    ContainsSeq ["--seturl", SETURL_VALUE] (meshtasticConfigCmd st) ∧
    ContainsSeq ["--set-owner", (buildOwnerStrings st).1] (meshtasticConfigCmd st) ∧
    ContainsSeq ["--set-owner-short", (buildOwnerStrings st).2] (meshtasticConfigCmd st) ∧
    ContainsSeq ["--set", "neighbor_info.update_interval", "120"] (meshtasticConfigCmd st) ∧
    ContainsSeq ["--set", "neighbor_info.transmit_over_lora", "true"] (meshtasticConfigCmd st) ∧
    ContainsSeq ["--set", "neighbor_info.enabled", "true"] (meshtasticConfigCmd st) ∧
    ContainsSeq ["--set", "device.role", (MODE_DEFS st.mode).role] (meshtasticConfigCmd st) ∧
    ContainsSeq ["--set", "device.rebroadcast_mode", "ALL"] (meshtasticConfigCmd st) ∧
    ContainsSeq ["--set", "lora.config_ok_to_mqtt", "true"] (meshtasticConfigCmd st) ∧
    ContainsSeq ["--set", "position.fixed_position",
      if (MODE_DEFS st.mode).gps_mode = "fixed" then "true" else "false"]
      (meshtasticConfigCmd st) ∧
    (meshtasticConfigCmd st).head? = some "meshtastic" := by
  obtain ⟨mo, fw, dr, ol, onum, osl, osn, la, lo⟩ := st
  cases mo <;>
    simp only [meshtasticConfigCmd, MODE_DEFS, buildOwnerStrings, reduceIte,
      List.cons_append, List.nil_append] <;>
    refine ⟨?_, ?_, ?_, ?_, ?_, ?_, ?_, ?_, ?_, ?_, rfl⟩ <;>
    (repeat first | exact containsSeq_here _ _ | apply containsSeq_cons)

/-- Counterexample for C6 as stated: besides the role and the
fixed-position handling, the command built for a concrete state carries
five fixed `--set key value` settings, not exactly two. -/
theorem configCmd_two_settings_cex :
    ((setPairs (meshtasticConfigCmd sampleState)).filter
        (fun p => decide (p.1 ≠ "device.role" ∧ p.1 ≠ "position.fixed_position"))).length = 5 ∧
    ((setPairs (meshtasticConfigCmd sampleState)).filter
        (fun p => decide (p.1 ≠ "device.role" ∧ p.1 ≠ "position.fixed_position"))).length ≠ 2 := by
  decide

/-- Claim C1: a mode with GPS mode "fixed" yields a command with the
fixed-position flag set to true followed by the literal latitude and
longitude strings after `--setlat`/`--setlon`; any other GPS mode yields
fixed-position false and no `--setlat`/`--setlon` flag.  The hypotheses
state that the coordinate fields carry no surrounding whitespace (the
source strips them) and that the owner names do not collide with the two
flag strings. -/
theorem configCmd_gps_flags (st : AppState)
    (hlat : pyStrip st.lat = st.lat) (hlon : pyStrip st.lon = st.lon)
    (hsetlat : "--setlat" ∉ [(buildOwnerStrings st).1, (buildOwnerStrings st).2])
    (hsetlon : "--setlon" ∉ [(buildOwnerStrings st).1, (buildOwnerStrings st).2]) :
    ((MODE_DEFS st.mode).gps_mode = "fixed" →
      ContainsSeq ["--set", "position.fixed_position", "true"] (meshtasticConfigCmd st) ∧
      ContainsSeq ["--setlat", st.lat] (meshtasticConfigCmd st) ∧
      ContainsSeq ["--setlon", st.lon] (meshtasticConfigCmd st)) ∧
    ((MODE_DEFS st.mode).gps_mode ≠ "fixed" →
      ContainsSeq ["--set", "position.fixed_position", "false"] (meshtasticConfigCmd st) ∧
      "--setlat" ∉ meshtasticConfigCmd st ∧
      "--setlon" ∉ meshtasticConfigCmd st) := by
  obtain ⟨mo, fw, dr, ol, onum, osl, osn, la, lo⟩ := st
  cases mo
  case RAK4631 =>
    refine ⟨fun _ => ⟨?_, ?_, ?_⟩, fun h => absurd rfl h⟩ <;>
      simp only [meshtasticConfigCmd, MODE_DEFS, buildOwnerStrings, hlat, hlon] <;>
      (repeat first | exact containsSeq_here _ _ | apply containsSeq_cons)
  case HeltecV3 =>
    refine ⟨fun h => absurd h (by simp [ MODE_DEFS]), fun _ => ⟨?_, ?_, ?_⟩⟩
    · simp only [meshtasticConfigCmd, MODE_DEFS, buildOwnerStrings]
      repeat first | exact containsSeq_here _ _ | apply containsSeq_cons
    · intro hmem
      simp [meshtasticConfigCmd, MODE_DEFS, buildOwnerStrings, SETURL_VALUE] at hsetlat hmem
      tauto
    · intro hmem
      simp [meshtasticConfigCmd, MODE_DEFS, buildOwnerStrings, SETURL_VALUE] at hsetlon hmem
      tauto
  case HeltecV4 =>
    refine ⟨fun h => absurd h (by simp [ MODE_DEFS]), fun _ => ⟨?_, ?_, ?_⟩⟩
    · simp only [meshtasticConfigCmd, MODE_DEFS, buildOwnerStrings]
      repeat first | exact containsSeq_here _ _ | apply containsSeq_cons
    · intro hmem
      simp [meshtasticConfigCmd, MODE_DEFS, buildOwnerStrings, SETURL_VALUE] at hsetlat hmem
      tauto
    · intro hmem
      simp [meshtasticConfigCmd, MODE_DEFS, buildOwnerStrings, SETURL_VALUE] at hsetlon hmem
      tauto

/-- Witness for C1: in the fixed-GPS sample state the command contains
`--setlat` followed by the entered latitude string. -/
theorem configCmd_gps_flags_witness :
    ContainsSeq ["--setlat", "37.8651"] (meshtasticConfigCmd sampleState) :=
  ((configCmd_gps_flags sampleState (by decide) (by decide) (by decide) (by decide)).1 rfl).2.1

/-- Claim C2 (amended): the process runner succeeds exactly when the exit
code is zero and otherwise signals a failure message carrying the exit
code; after the echoed command line and the process start, every output
byte is forwarded to the sink, a carriage-return byte as a newline, an
ASCII byte as itself, and any other byte as the replacement character
produced by the byte-at-a-time decode. -/
theorem run_cmd_stream_spec (env : Env) (cmd : List String) :
    ((runCmdStreamEff env cmd).2 = none ↔ env.procExit cmd = 0) ∧
    (env.procExit cmd ≠ 0 →
      (runCmdStreamEff env cmd).2 =
        some ("Command failed (exit " ++ toString (env.procExit cmd) ++ ")")) ∧
    ((runCmdStreamEff env cmd).1 =
      Effect.log ("$ " ++ String.intercalate " " cmd ++ "\n") :: Effect.runProc cmd ::
        (env.procOutput cmd).map
          (fun b => Effect.log (if b = 13 then "\n" else String.mk [decodeByte b]))) := by
  refine ⟨?_, ?_, ?_⟩
  · unfold runCmdStreamEff
    by_cases h : env.procExit cmd = 0 <;> simp [h]
  · intro h
    unfold runCmdStreamEff
    simp [h]
  · unfold runCmdStreamEff
    simp [streamLoop_eq_map]

/-- Witness for C2: a clean exit is reported as success. -/
theorem run_cmd_stream_spec_witness :
    (runCmdStreamEff sampleEnv ["esptool", "erase-flash"]).2 = none :=
  (run_cmd_stream_spec sampleEnv ["esptool", "erase-flash"]).1.mpr rfl

/-- Counterexample for C2 as stated: the non-ASCII output byte 200 is not
forwarded unmodified; it reaches the sink as the replacement character
U+FFFD, not as the character with code 200. -/
theorem run_cmd_stream_byte_cex :
    (runCmdStreamEff byteEnv ["prog"]).1 =
      [Effect.log "$ prog\n", Effect.runProc ["prog"],
        Effect.log (String.mk [Char.ofNat 65533])] ∧
    String.mk [Char.ofNat 65533] ≠ String.mk [Char.ofNat 200] := by
  decide

/-- Claim C4: the UF2 copy succeeds exactly when the source file exists,
its name ends (case-insensitively) in ".uf2" and the drive root exists;
on any failed check an error is raised and no copy effect is produced,
and on success the file is copied to the drive root. -/
theorem copyUf2ToDrive_guards (fs : FS) (p d : String) :
    ((copyUf2ToDrive fs p d).2 = none ↔
      (fs.isFile p = true ∧ strEndsWith (pyLower p) ".uf2" = true ∧ fs.isDir d = true)) ∧
    ((copyUf2ToDrive fs p d).2 ≠ none →
      ∀ s t, Effect.copyFile s t ∉ (copyUf2ToDrive fs p d).1) ∧
    ((copyUf2ToDrive fs p d).2 = none →
      Effect.copyFile p (joinPath d (basename p)) ∈ (copyUf2ToDrive fs p d).1) := by
  unfold copyUf2ToDrive
  cases h1 : fs.isFile p <;> cases h2 : strEndsWith (pyLower p) ".uf2" <;>
    cases h3 : fs.isDir d <;> simp [h1, h2, h3]

/-- Witness for C4: with all three checks passing the copy effect is
produced. -/
theorem copyUf2ToDrive_guards_witness :
    Effect.copyFile "rak4631.uf2" "E:\\rak4631.uf2" ∈
      (copyUf2ToDrive { isFile := fun _ => true, isDir := fun _ => true }
        "rak4631.uf2" "E:\\").1 :=
  (copyUf2ToDrive_guards { isFile := fun _ => true, isDir := fun _ => true }
    "rak4631.uf2" "E:\\").2.2 (by decide)

/-- Claim C10: the extension error is raised exactly for an existing
source file whose lowercased name does not end in ".uf2"; in particular
the check is case-insensitive, e.g. "FIRMWARE.UF2" passes it. -/
theorem copyUf2ToDrive_ext_check (fs : FS) (p d : String) :
    ((copyUf2ToDrive fs p d).2 = some "UF2 flashing requires a .uf2 file." ↔
      (fs.isFile p = true ∧ strEndsWith (pyLower p) ".uf2" = false)) ∧
    strEndsWith (pyLower "FIRMWARE.UF2") ".uf2" = true := by
  refine ⟨?_, by decide⟩
  unfold copyUf2ToDrive
  cases h1 : fs.isFile p <;> cases h2 : strEndsWith (pyLower p) ".uf2" <;>
    cases h3 : fs.isDir d <;> simp [h1, h2, h3, driveMsg_ne d]

/-- Witness for C10: the upper-case firmware name "FIRMWARE.UF2" does not
trigger the extension error. -/
theorem copyUf2ToDrive_ext_check_witness :
    (copyUf2ToDrive { isFile := fun _ => true, isDir := fun _ => true }
      "FIRMWARE.UF2" "E:\\").2 ≠ some "UF2 flashing requires a .uf2 file." := by
  have h := (copyUf2ToDrive_ext_check { isFile := fun _ => true, isDir := fun _ => true }
    "FIRMWARE.UF2" "E:\\").1
  intro hc
  have h2 := h.mp hc
  exact absurd h2.2 (by decide)

/-- Claim C5: when validation fails, the flash action only logs and shows
the validation error: it performs no file copy and starts no external
process. -/
theorem flashOnly_validation_aborts (st : AppState) (env : Env) (e : String)
    (h : validateCommon st env.fs = some e) :
    flashOnly st env = [Effect.log ("\nERROR: " ++ e ++ "\n"), Effect.showError e] ∧
    (∀ s t, Effect.copyFile s t ∉ flashOnly st env) ∧
    (∀ c, Effect.runProc c ∉ flashOnly st env) ∧
    Effect.showError e ∈ flashOnly st env := by
  have hf : flashOnly st env =
      [Effect.log ("\nERROR: " ++ e ++ "\n"), Effect.showError e] := by
    simp only [flashOnly, h]
  refine ⟨hf, ?_, ?_, ?_⟩ <;> rw [hf] <;> simp

/-- Witness for C5: an empty firmware path fails validation and the error
dialog effect is produced. -/
theorem flashOnly_validation_aborts_witness :
    Effect.showError "Firmware file not set or not found." ∈ flashOnly emptyFwState sampleEnv :=
  (flashOnly_validation_aborts emptyFwState sampleEnv
    "Firmware file not set or not found." (by decide)).2.2.2

/-- Claim C9: drive detection returns exactly the removable drive roots
whose marker-file check succeeds with a marker present, and a drive whose
existence query raises is skipped rather than failing the scan. -/
theorem detectUf2Drives_spec (env : DriveEnv) :
    (∀ d, d ∈ detectUf2Drives env ↔ (d ∈ env.removable ∧ markerCheck env d = Except.ok true)) ∧
    (∀ d e, markerCheck env d = Except.error e → d ∉ detectUf2Drives env) := by
  refine ⟨fun d => detectGo_mem env env.removable d, ?_⟩
  intro d e hm hmem
  have h2 := (detectGo_mem env env.removable d).mp hmem
  rw [hm] at h2
  cases h2.2

/-- Witness for C9: the marker-bearing drive is detected and the drive
whose queries raise is skipped. -/
theorem detectUf2Drives_spec_witness :
    "E:\\" ∈ detectUf2Drives sampleDriveEnv ∧ "F:\\" ∉ detectUf2Drives sampleDriveEnv :=
  ⟨((detectUf2Drives_spec sampleDriveEnv).1 "E:\\").mpr ⟨by decide, by rfl⟩,
   (detectUf2Drives_spec sampleDriveEnv).2 "F:\\" () (by rfl)⟩

/-- Claim C3: for an all-digit owner-number string the increment adds one
to its numeric value and zero-fills the result to the original string's
length. -/
theorem incOwnerNumber_digits (s : String) (h1 : pyStrip s = s)
    (h2 : pyIsDigitStr s = true) :
    incOwnerNumber s = zfill (toString ((digitsToNat s.data : Int) + 1)) s.length := by
  obtain ⟨hne, hall⟩ := pyIsDigitStr_parts h2
  have hs : ¬(s = "") := by
    intro h
    apply hne
    rw [h]
  have hlen : s.length > 0 := length_pos_of_data_ne_nil hne
  simp only [incOwnerNumber, h1]
  rw [if_pos h2, if_neg hs, pyIntOfString_digits s hne hall]
  simp [hlen]

/-- Witness for C3: "01" becomes "02" and "9" becomes "10". -/
theorem incOwnerNumber_digits_witness :
    incOwnerNumber "01" = "02" ∧ incOwnerNumber "9" = "10" := by
  constructor
  · rw [incOwnerNumber_digits "01" (by decide) (by decide)]
    decide
  · rw [incOwnerNumber_digits "9" (by decide) (by decide)]
    decide

/-- Claim C7: the GPS query fails with the provider-instantiation error
carrying the HRESULT when the creation call fails, before any polling;
otherwise it raises the fix-timeout error exactly when none of the 15
one-second polls of the fixed window yields a report. -/
theorem getLatLon_error_spec {α : Type} (env : GpsEnv α) :
    (env.createHr ≠ 0 → getLatLon env = Except.error (GpsError.createFailed env.createHr)) ∧
    (env.createHr = 0 →
      (getLatLon env = Except.error GpsError.noFix ↔
        ∀ t, t < 15 → (env.reportAt t).2 = none)) := by
  constructor
  · intro h
    simp [getLatLon, h]
  · intro h
    unfold getLatLon
    rw [if_neg (by simp [h])]
    rw [gpsLoop_noFix_iff env 15 0 none]
    simp

/-- Witness for C7: a fix-less window times out, and a failed creation
call reports the instantiation error with its HRESULT. -/
theorem getLatLon_error_spec_witness :
    getLatLon gpsEnvNoReport = Except.error GpsError.noFix ∧
    getLatLon gpsEnvBadCreate = Except.error (GpsError.createFailed 5) :=
  ⟨((getLatLon_error_spec gpsEnvNoReport).2 rfl).mpr (fun _ _ => rfl),
   (getLatLon_error_spec gpsEnvBadCreate).1 (by decide)⟩

end Flashtastic
